import Mathlib

/-!
Shallow embedding of the check-in decision engine of `gsc-rogue-functions`
(Supabase edge functions), covering:

* `_shared/discord/validate-player-presence.ts` — presence resolution
  (name/id matching, role matching, presence status interpretation);
* `_shared/handlers/checkin-handler.ts` — `performCheckin` and
  `performBulkCheckin`;
* `_shared/database/discord-handle.ts` — the two-table handle lookup;
* the status-write helper `updatePlayerStatus`.

External effects (Supabase reads/writes, Discord API calls) are modelled by
explicit environment records supplying each call's outcome; JavaScript string
truthiness (`""`, `null`, `undefined` are falsy) is modelled by `jsTruthy`.
-/

namespace GscRogue

/-- JS string truthiness: `undefined`/`null` (`none`) and `""` are falsy.
Returns the string when truthy, `none` otherwise. -/
def jsTruthy : Option String → Option String
  | some s => if s = "" then none else some s
  | none => none

/-- Evaluate `a || b` on an optional string and a fallback string (JS `||`). -/
def jsOrStr (a : Option String) (b : String) : String :=
  match jsTruthy a with
  | some s => s
  | none => b

/-! Presence resolver (`validate-player-presence.ts`) -/

/-- The `PresenceStatus` union type: the five Discord statuses plus an `unknown` value. -/
inductive PresenceStatus where
  | online | idle | dnd | offline | invisible | unknown
deriving DecidableEq, Repr

/-- Source constant `ONLINE_STATUSES`: the list `[online, idle, dnd]`. -/
def ONLINE_STATUSES : List PresenceStatus := [.online, .idle, .dnd]

/-- Helper `normalize`: `(value ?? '').toString().trim().toLowerCase()` on an
optional string. -/
def normalize (value : Option String) : String :=
  ((value.getD "").trim).toLower

structure DiscordUser where
  id : String
  username : String
  globalName : Option String
deriving DecidableEq, Repr

structure DiscordRole where
  id : String
  name : String
deriving DecidableEq, Repr

structure DiscordGuildMember where
  user : DiscordUser
  nick : Option String
  roles : List String
  presence : Option PresenceStatus
deriving DecidableEq, Repr

/-- Predicate `memberMatchesNameish`: the target matches if its normalized form is among
the non-empty normalized candidates {username, nick, globalName}. -/
def memberMatchesNameish (member : DiscordGuildMember) (target : String) : Bool :=
  let normalizedTarget := normalize (some target)
  let user := member.user
  let candidates := ([normalize (some user.username),
                      normalize member.nick,
                      normalize user.globalName]).filter (fun c => c ≠ "")
  candidates.contains normalizedTarget

/-- Predicate `memberHasMatchingRole`: false when both filter sets are empty; otherwise
scans the member's role ids for an id in `roleIds` or a role whose name
(resolved through `guildRoles`, normalized) is in `roleNames`.  The TS `Set`s
are modelled as lists used only through membership and emptiness; the TS
`Map` is modelled as a lookup function. -/
def memberHasMatchingRole (member : DiscordGuildMember)
    (roleIds roleNames : List String)
    (guildRoles : String → Option DiscordRole) : Bool :=
  if roleIds.isEmpty && roleNames.isEmpty then false
  else
    member.roles.any (fun roleId =>
      roleIds.contains roleId ||
        (match guildRoles roleId with
         | some role => roleNames.contains (normalize (some role.name))
         | none => false))

structure PlayerPresenceResult where
  target : String
  username : String
  isMember : Bool
  isRole : Bool
  isPresent : Bool
  error : Option String
deriving DecidableEq, Repr

/-- The member lookup inside `validatePlayersPresence`: by exact id when
`useId`, otherwise by `memberMatchesNameish`; `members.find` keeps roster
order. -/
def findTargetMember (members : List DiscordGuildMember) (useId : Bool)
    (target : String) : Option DiscordGuildMember :=
  if useId then members.find? (fun m => m.user.id = target)
  else members.find? (fun m => memberMatchesNameish m target)

/-- Per-target body of `validatePlayersPresence` (the `_shared` variant):
member lookup, no-match default, username fallback chain, a fresh
`fetchMemberPresence` call (modelled by `presenceOf`, which returns `none`
when the fetch fails or carries no presence — `fetchMemberPresence` catches
its own errors), presence and role computation. -/
def processTarget (members : List DiscordGuildMember)
    (guildRoles : String → Option DiscordRole)
    (roleIds roleNames : List String) (useId : Bool)
    (presenceOf : String → Option PresenceStatus)
    (target : String) : PlayerPresenceResult :=
  match findTargetMember members useId target with
  | none =>
      { target := target, username := target,
        isMember := false, isRole := false, isPresent := false, error := none }
  | some member =>
      let username :=
        jsOrStr member.user.globalName
          (jsOrStr member.nick (jsOrStr (some member.user.username) target))
      let status := (presenceOf member.user.id).getD .unknown
      let isPresent := status ≠ PresenceStatus.unknown && ONLINE_STATUSES.contains status
      let isRole := memberHasMatchingRole member roleIds roleNames guildRoles
      { target := target, username := username,
        isMember := true, isRole := isRole, isPresent := isPresent, error := none }

/-- Batch body of `validatePlayersPresence` after the guild fetch: each
target processed independently against the single fetched snapshot. -/
def validatePlayersPresence (members : List DiscordGuildMember)
    (guildRoles : String → Option DiscordRole)
    (roleIds roleNames : List String) (useId : Bool)
    (presenceOf : String → Option PresenceStatus)
    (targets : List String) : List PlayerPresenceResult :=
  targets.map (processTarget members guildRoles roleIds roleNames useId presenceOf)

/-! Discord handle lookup (`database/discord-handle.ts`) -/

/-- Lookup `getDiscordHandle`: try `league_players.discord_handle` first, fall back
to `app_users.discord_handle`; a `null` or empty handle counts as absent
(JS truthiness on `data?.discord_handle`); `none` when neither table has
one.  The two table reads are modelled by their returned handle columns. -/
def getDiscordHandle (leagueHandle appHandle : Option String) : Option String :=
  match jsTruthy leagueHandle with
  | some h => some h
  | none =>
      match jsTruthy appHandle with
      | some h => some h
      | none => none

/-! Single check-in engine (`checkin-handler.ts`, `performCheckin`) -/

/-- The slice of `PlayerPresenceResult` read by `performCheckin`. -/
structure DiscordPresenceLite where
  isMember : Bool
  isRole : Bool
  isPresent : Bool
  username : Option String
deriving DecidableEq, Repr

structure CheckinRequest where
  userId : Option String
  eventId : Option String
  discordHandle : Option String
  force : Bool
deriving DecidableEq, Repr

structure CheckinDetails where
  userId : String
  eventId : String
  hasPaid : Bool
  hasDecklist : Bool
  discordPresence : DiscordPresenceLite
  statusUpdated : Bool
deriving DecidableEq, Repr

structure CheckinResult where
  success : Bool
  message : String
  details : Option CheckinDetails
  error : Option String
deriving DecidableEq, Repr

/-- Outcomes of the external calls one `performCheckin` run makes:
`checkPaymentStatus`, `checkDecklistStatus`, the two handle-table reads,
`validatePlayerPresence` (which may throw — primary guild fetch failure or
missing token/guild configuration), and `updatePlayerStatus`. -/
structure CheckinEnv where
  hasPaid : Bool
  hasDecklist : Bool
  leagueHandle : Option String
  appHandle : Option String
  presence : Except String DiscordPresenceLite
  updateSucceeds : Bool
deriving Repr

/-- Observable side effects of one `performCheckin` run. -/
structure CheckinTrace where
  discordApiCalled : Bool
  statusWriteAttempted : Bool
deriving DecidableEq, Repr

/-- Computes `providedDiscordHandle || await getDiscordHandle(...)` (JS `||`, so an
empty provided handle falls through to the lookup). -/
def effectiveDiscordHandle (req : CheckinRequest) (env : CheckinEnv) : Option String :=
  match jsTruthy req.discordHandle with
  | some h => some h
  | none => getDiscordHandle env.leagueHandle env.appHandle

/-- Step 3 of `performCheckin`: if a truthy handle exists, call
`validatePlayerPresence` (inner `try` maps a thrown error to the
all-false default); otherwise the all-false default without any Discord
call. -/
def checkinPresence (req : CheckinRequest) (env : CheckinEnv) : DiscordPresenceLite :=
  match effectiveDiscordHandle req env with
  | some _ =>
      match env.presence with
      | .ok p => p
      | .error _ => ⟨false, false, false, none⟩
  | none => ⟨false, false, false, none⟩

/-- Step 4: `hasPaid && hasDecklist && discordPresence.isMember &&
discordPresence.isRole`. -/
def allConditionsMet (req : CheckinRequest) (env : CheckinEnv) : Bool :=
  env.hasPaid && env.hasDecklist &&
    (checkinPresence req env).isMember && (checkinPresence req env).isRole

/-- The `missingConditions` array pushed in source order:
payment, decklist, Discord membership, Discord role. -/
def missingConditions (req : CheckinRequest) (env : CheckinEnv) : List String :=
  (if env.hasPaid then [] else ["payment"]) ++
  (if env.hasDecklist then [] else ["decklist"]) ++
  (if (checkinPresence req env).isMember then [] else ["Discord membership"]) ++
  (if (checkinPresence req env).isRole then [] else ["Discord role"])

/-- Model of `performCheckin` with its effect trace.  The `config` argument of the
source only routes credentials to the abstracted external calls, so it is
absorbed into `CheckinEnv`.  `!userId || !eventId` is JS truthiness.  The
modelled external calls return values rather than throw, so the outer
`catch` branch is unreachable in the model. -/
def performCheckinT (req : CheckinRequest) (env : CheckinEnv) :
    CheckinResult × CheckinTrace :=
  match jsTruthy req.userId, jsTruthy req.eventId with
  | some userId, some eventId =>
      let discordPresence := checkinPresence req env
      let met := allConditionsMet req env
      let statusUpdated := if met || req.force then env.updateSucceeds else false
      let message :=
        if met || req.force then
          if statusUpdated then "Player successfully checked in and confirmed"
          else "All conditions met but failed to update status"
        else
          "Checkin failed. Missing: " ++
            String.intercalate ", " (missingConditions req env)
      ({ success := met || (req.force && statusUpdated),
         message := message,
         details := some { userId := userId, eventId := eventId,
                           hasPaid := env.hasPaid, hasDecklist := env.hasDecklist,
                           discordPresence := discordPresence,
                           statusUpdated := statusUpdated },
         error := none },
       { discordApiCalled := (effectiveDiscordHandle req env).isSome,
         statusWriteAttempted := met || req.force })
  | _, _ =>
      ({ success := false, message := "Missing userId or eventId",
         details := none, error := some "userId and eventId are required" },
       { discordApiCalled := false, statusWriteAttempted := false })

/-- Projection of `performCheckinT` to the returned result. -/
def performCheckin (req : CheckinRequest) (env : CheckinEnv) : CheckinResult :=
  (performCheckinT req env).1

/-! Bulk orchestrator (`checkin-handler.ts`, `performBulkCheckin`) -/

structure EventRow where
  id : String
  event_title : String
  status : String
deriving DecidableEq, Repr

structure PlayerRow where
  user_id : String
  status : String
deriving DecidableEq, Repr

structure BulkCheckinRequest where
  eventId : String
  force : Bool
deriving DecidableEq, Repr

structure BulkEntry where
  userId : String
  success : Bool
  message : String
  originalStatus : String
deriving DecidableEq, Repr

structure BulkDetails where
  eventId : String
  eventStatus : String
  totalPlayers : Nat
  successfulCheckins : Nat
  results : List BulkEntry
deriving DecidableEq, Repr

structure BulkCheckinResult where
  success : Bool
  message : String
  details : Option BulkDetails
  error : Option String
deriving DecidableEq, Repr

/-- Outcomes of the external interactions of one `performBulkCheckin` run:
the event read (`.error` = query error or missing row), the roster read,
and, for the i-th processed player, either the `CheckinEnv` its
`performCheckin` call runs in, or an unexpected exception thrown during that
player's processing (`.error msg`, caught by the per-player `catch`). -/
structure BulkEnv where
  event : Except String EventRow
  players : Except String (List PlayerRow)
  perPlayer : Nat → Except String CheckinEnv

/-- Body of one iteration of the per-player loop (step 4): the entry pushed
for the i-th player — a `performCheckin` outcome, or, when that player's
processing threw an unexpected exception, a failure entry carrying
`error.message` and the original status.  Note the source passes only
`userId`/`eventId` to the inner `performCheckin` — no `force`, no handle. -/
def bulkEntryFor (eventId : String) (perPlayer : Nat → Except String CheckinEnv)
    (i : Nat) (p : PlayerRow) : BulkEntry :=
  match perPlayer i with
  | .ok cenv =>
      let r := performCheckin
        { userId := some p.user_id, eventId := some eventId,
          discordHandle := none, force := false } cenv
      { userId := p.user_id, success := r.success, message := r.message,
        originalStatus := p.status }
  | .error msg =>
      { userId := p.user_id, success := false, message := msg,
        originalStatus := p.status }

/-- The per-player `for` loop (step 4): sequential, one entry per player in
roster order; the loop never aborts early. -/
def bulkProcess (eventId : String) (perPlayer : Nat → Except String CheckinEnv) :
    Nat → List PlayerRow → List BulkEntry
  | _, [] => []
  | i, p :: ps =>
      bulkEntryFor eventId perPlayer i p :: bulkProcess eventId perPlayer (i + 1) ps

/-- Approximation of JS `(successCount / total * 100).toFixed(1)` by one-decimal
integer arithmetic (no claim depends on this string). -/
def successRateStr (successCount total : Nat) : String :=
  if total = 0 then "0"
  else
    let permille := successCount * 1000 / total
    toString (permille / 10) ++ "." ++ toString (permille % 10)

/-- Model of `performBulkCheckin` paired with the list of players the loop actually
processed (empty whenever a gate returns before the loop). -/
def performBulkCheckinT (req : BulkCheckinRequest) (env : BulkEnv) :
    BulkCheckinResult × List String :=
  if req.eventId = "" then
    ({ success := false, message := "Missing eventId",
       details := none, error := some "eventId is required" }, [])
  else
    match env.event with
    | .error e =>
        ({ success := false, message := "Event not found",
           details := none, error := some e }, [])
    | .ok event =>
        if event.status ≠ "REGISTRATION_CLOSED" ∧ req.force = false then
          ({ success := false,
             message := "Event status is " ++ event.status ++
               ", expected REGISTRATION_CLOSED",
             details := none,
             error := some "Event must be in REGISTRATION_CLOSED status to run check-ins" },
           [])
        else
          match env.players with
          | .error e =>
              ({ success := false, message := "Failed to fetch registered players",
                 details := none, error := some e }, [])
          | .ok players =>
              if players.isEmpty then
                ({ success := true,
                   message := "No players found with PENDING or CONFIRMED status",
                   details := some { eventId := req.eventId, eventStatus := event.status,
                                     totalPlayers := 0, successfulCheckins := 0,
                                     results := [] },
                   error := none }, [])
              else
                let results := bulkProcess req.eventId env.perPlayer 0 players
                let successCount := (results.filter (fun r => r.success)).length
                ({ success := true,
                   message := "Bulk checkin completed for event " ++ req.eventId ++
                     ". " ++ toString successCount ++ "/" ++ toString players.length ++
                     " players processed successfully (" ++
                     successRateStr successCount players.length ++ "%)",
                   details := some { eventId := req.eventId, eventStatus := event.status,
                                     totalPlayers := players.length,
                                     successfulCheckins := successCount,
                                     results := results },
                   error := none },
                 players.map (fun p => p.user_id))

/-- Projection of `performBulkCheckinT` to the returned result. -/
def performBulkCheckin (req : BulkCheckinRequest) (env : BulkEnv) : BulkCheckinResult :=
  (performBulkCheckinT req env).1

/-! Status state machine (`updatePlayerStatus` and the engine's writes)

`league_event_players.status` as a map from `(user_id, event_id)` to the
row's status (`none` = no row).  The engine's only mutation is
`updatePlayerStatus`, an unconditional `UPDATE ... SET status = 'CONFIRMED'`
on the rows matching the key (a missing row leaves the store unchanged). -/

def DbState := String × String → Option String

/-- Effect of a successful `updatePlayerStatus` call on the store. -/
def applyStatusWrite (userId eventId : String) (s : DbState) : DbState :=
  fun k =>
    if k = (userId, eventId) ∧ (s k).isSome then some "CONFIRMED" else s k

/-- Store effect of one `performCheckin` run: the write happens exactly when
the run attempts it (`allConditionsMet || force`, ids truthy) and
`updatePlayerStatus` reports no error. -/
def checkinEffect (req : CheckinRequest) (env : CheckinEnv) (s : DbState) : DbState :=
  match jsTruthy req.userId, jsTruthy req.eventId with
  | some u, some e =>
      if (performCheckinT req env).2.statusWriteAttempted && env.updateSucceeds
      then applyStatusWrite u e s
      else s
  | _, _ => s

/-- Store effect of the bulk loop over the remaining players. -/
def bulkLoopEffect (eventId : String) (perPlayer : Nat → Except String CheckinEnv) :
    Nat → List PlayerRow → DbState → DbState
  | _, [], s => s
  | i, p :: ps, s =>
      let s' :=
        match perPlayer i with
        | .ok cenv =>
            checkinEffect
              { userId := some p.user_id, eventId := some eventId,
                discordHandle := none, force := false } cenv s
        | .error _ => s
      bulkLoopEffect eventId perPlayer (i + 1) ps s'

/-- Store effect of one `performBulkCheckin` run: every early return leaves
the store unchanged; otherwise the per-player loop runs. -/
def bulkEffect (req : BulkCheckinRequest) (env : BulkEnv) (s : DbState) : DbState :=
  if req.eventId = "" then s
  else
    match env.event with
    | .error _ => s
    | .ok event =>
        if event.status ≠ "REGISTRATION_CLOSED" ∧ req.force = false then s
        else
          match env.players with
          | .error _ => s
          | .ok players => bulkLoopEffect req.eventId env.perPlayer 0 players s

/-- One engine operation: a single check-in or a bulk run, under arbitrary
request and external-world outcomes. -/
inductive EngineStep : DbState → DbState → Prop
  | single (req : CheckinRequest) (env : CheckinEnv) (s : DbState) :
      EngineStep s (checkinEffect req env s)
  | bulk (req : BulkCheckinRequest) (env : BulkEnv) (s : DbState) :
      EngineStep s (bulkEffect req env s)

/-- States reachable through engine operations. -/
def EngineReachable : DbState → DbState → Prop :=
  Relation.ReflTransGen EngineStep

/-- Spec-side helper: the same environment with only the reported
`isPresent` bit of the presence outcome replaced, used to state that
presence is not a gating condition. -/
def setPresenceIsPresent (env : CheckinEnv) (b : Bool) : CheckinEnv :=
  { env with presence :=
      match env.presence with
      | .ok p => .ok { p with isPresent := b }
      | .error e => .error e }

/-! Theorems -/

lemma contains_iff_mem_str (l : List String) (a : String) :
    l.contains a = true ↔ a ∈ l := by
  exact List.elem_iff

/-- C6: role matching is false when both filter sets are empty, and otherwise
holds iff some role id of the member is in `roleIds` or resolves through the
role map to a name whose normalized (case-insensitive, trimmed) form is in
`roleNames`. -/
theorem memberHasMatchingRole_iff (member : DiscordGuildMember)
    (roleIds roleNames : List String) (guildRoles : String → Option DiscordRole) :
    memberHasMatchingRole member roleIds roleNames guildRoles = true ↔
      (¬(roleIds = [] ∧ roleNames = []) ∧
        ∃ rid ∈ member.roles,
          rid ∈ roleIds ∨
            ∃ role, guildRoles rid = some role ∧
              normalize (some role.name) ∈ roleNames) := by
  unfold memberHasMatchingRole
  by_cases hboth : roleIds = [] ∧ roleNames = []
  · obtain ⟨h1, h2⟩ := hboth
    subst h1; subst h2
    simp
  · have hb : (roleIds.isEmpty && roleNames.isEmpty) = false := by
      rcases roleIds with _ | ⟨a, as⟩ <;> rcases roleNames with _ | ⟨b, bs⟩ <;>
        simp_all
    rw [hb]
    simp only [Bool.false_eq_true, if_false, List.any_eq_true]
    constructor
    · rintro ⟨rid, hrid, hp⟩
      refine ⟨hboth, rid, hrid, ?_⟩
      rcases Bool.or_eq_true_iff.mp hp with h | h
      · exact Or.inl ((contains_iff_mem_str _ _).mp h)
      · cases hgr : guildRoles rid with
        | none => rw [hgr] at h; exact absurd h (by simp)
        | some role =>
            rw [hgr] at h
            exact Or.inr ⟨role, rfl, (contains_iff_mem_str _ _).mp h⟩
    · rintro ⟨-, rid, hrid, hp⟩
      refine ⟨rid, hrid, Bool.or_eq_true_iff.mpr ?_⟩
      rcases hp with h | ⟨role, hgr, hname⟩
      · exact Or.inl ((contains_iff_mem_str _ _).mpr h)
      · rw [hgr]
        exact Or.inr ((contains_iff_mem_str _ _).mpr hname)

/-- C5: a target matching no roster member (id-exact when `useId`, normalized
name otherwise) resolves to the all-false result echoing the target back as
the username. -/
theorem processTarget_no_match (members : List DiscordGuildMember)
    (guildRoles : String → Option DiscordRole) (roleIds roleNames : List String)
    (useId : Bool) (presenceOf : String → Option PresenceStatus) (target : String)
    (hId : useId = true → ∀ m ∈ members, ¬ m.user.id = target)
    (hName : useId = false → ∀ m ∈ members, memberMatchesNameish m target = false) :
    processTarget members guildRoles roleIds roleNames useId presenceOf target =
      { target := target, username := target, isMember := false,
        isRole := false, isPresent := false, error := none } := by
  have hfind : findTargetMember members useId target = none := by
    unfold findTargetMember
    cases useId with
    | true =>
        simp only [if_true]
        exact List.find?_eq_none.mpr (fun m hm => by simp [hId rfl m hm])
    | false =>
        simp only [Bool.false_eq_true, if_false]
        exact List.find?_eq_none.mpr (fun m hm => by simp [hName rfl m hm])
  unfold processTarget
  rw [hfind]

/-- C5 witness: in id-matching mode, the target "9" matches neither member
of a two-member roster, so resolution echoes it back with all flags false. -/
theorem processTarget_no_match_witness :
    processTarget
      [⟨⟨"1", "alice", none⟩, none, [], none⟩,
       ⟨⟨"2", "carol", some "Carol"⟩, some "Caz", ["r1"], some .online⟩]
      (fun _ => none) [] ["member"] true (fun _ => some .online) "9" =
      { target := "9", username := "9", isMember := false,
        isRole := false, isPresent := false, error := none } :=
  processTarget_no_match _ _ _ _ _ _ _
    (fun _ => by decide)
    (fun h => by simp at h)

/-- C7: for a resolved member, `isPresent` holds iff the fetched presence
status is one of online, idle, dnd; it is false for offline, invisible,
unknown and for an absent presence (treated as unknown). -/
theorem processTarget_isPresent_iff (members : List DiscordGuildMember)
    (guildRoles : String → Option DiscordRole) (roleIds roleNames : List String)
    (useId : Bool) (presenceOf : String → Option PresenceStatus) (target : String)
    (m : DiscordGuildMember)
    (hm : findTargetMember members useId target = some m) :
    ((processTarget members guildRoles roleIds roleNames useId presenceOf
        target).isPresent = true ↔
      (presenceOf m.user.id = some .online ∨ presenceOf m.user.id = some .idle ∨
        presenceOf m.user.id = some .dnd)) := by
  unfold processTarget
  rw [hm]
  cases hp : presenceOf m.user.id with
  | none => simp [hp, ONLINE_STATUSES]
  | some st => cases st <;> simp [hp, ONLINE_STATUSES]

/-- C7 witness: a member resolved by id with a fetched `dnd` status is
present. -/
theorem processTarget_isPresent_iff_witness :
    ((processTarget [⟨⟨"1", "alice", none⟩, none, [], none⟩] (fun _ => none)
        [] [] true (fun _ => some .dnd) "1").isPresent = true ↔
      (some PresenceStatus.dnd = some PresenceStatus.online ∨
        some PresenceStatus.dnd = some PresenceStatus.idle ∨
        some PresenceStatus.dnd = some PresenceStatus.dnd)) :=
  processTarget_isPresent_iff _ _ _ _ _ _ _
    ⟨⟨"1", "alice", none⟩, none, [], none⟩ (by decide)

lemma checkinPresence_setPresenceIsPresent (req : CheckinRequest)
    (env : CheckinEnv) (b : Bool) :
    (checkinPresence req (setPresenceIsPresent env b)).isMember =
        (checkinPresence req env).isMember ∧
      (checkinPresence req (setPresenceIsPresent env b)).isRole =
        (checkinPresence req env).isRole := by
  unfold checkinPresence effectiveDiscordHandle setPresenceIsPresent
  cases jsTruthy req.discordHandle <;>
    cases getDiscordHandle env.leagueHandle env.appHandle <;>
    cases env.presence <;> simp

lemma allConditionsMet_setPresenceIsPresent (req : CheckinRequest)
    (env : CheckinEnv) (b : Bool) :
    allConditionsMet req (setPresenceIsPresent env b) = allConditionsMet req env := by
  obtain ⟨h1, h2⟩ := checkinPresence_setPresenceIsPresent req env b
  unfold allConditionsMet
  rw [h1, h2]
  simp [setPresenceIsPresent]

lemma performCheckin_success_eq (req : CheckinRequest) (env : CheckinEnv)
    (u e : String)
    (hu : jsTruthy req.userId = some u) (he : jsTruthy req.eventId = some e) :
    (performCheckin req env).success =
      (allConditionsMet req env || (req.force && env.updateSucceeds)) := by
  unfold performCheckin performCheckinT
  rw [hu, he]
  cases hmet : allConditionsMet req env <;> cases hfo : req.force <;> simp

lemma performCheckin_details_eq (req : CheckinRequest) (env : CheckinEnv)
    (u e : String)
    (hu : jsTruthy req.userId = some u) (he : jsTruthy req.eventId = some e) :
    (performCheckin req env).details =
      some { userId := u, eventId := e,
             hasPaid := env.hasPaid, hasDecklist := env.hasDecklist,
             discordPresence := checkinPresence req env,
             statusUpdated :=
               if allConditionsMet req env || req.force
               then env.updateSucceeds else false } := by
  unfold performCheckin performCheckinT
  rw [hu, he]

/-- C1: with both ids supplied and no `force`, the check-in succeeds iff all
four of paid, decklist, membership, role hold; when they do not all hold the
reported `statusUpdated` is false; and the reported `isPresent` bit never
influences the outcome. -/
theorem performCheckin_accept_iff (req : CheckinRequest) (env : CheckinEnv)
    (u e : String)
    (hu : jsTruthy req.userId = some u) (he : jsTruthy req.eventId = some e)
    (hf : req.force = false) :
    ((performCheckin req env).success = true ↔
      (env.hasPaid = true ∧ env.hasDecklist = true ∧
        (checkinPresence req env).isMember = true ∧
        (checkinPresence req env).isRole = true)) ∧
    (allConditionsMet req env = false →
      ∃ d, (performCheckin req env).details = some d ∧ d.statusUpdated = false) ∧
    (∀ b, (performCheckin req (setPresenceIsPresent env b)).success =
      (performCheckin req env).success) := by
  refine ⟨?_, ?_, ?_⟩
  · rw [performCheckin_success_eq req env u e hu he, hf]
    unfold allConditionsMet
    cases env.hasPaid <;> cases env.hasDecklist <;>
      cases (checkinPresence req env).isMember <;>
      cases (checkinPresence req env).isRole <;> simp
  · intro hmet
    refine ⟨_, performCheckin_details_eq req env u e hu he, ?_⟩
    simp [hmet, hf]
  · intro b
    rw [performCheckin_success_eq req env u e hu he,
        performCheckin_success_eq req (setPresenceIsPresent env b) u e hu he,
        allConditionsMet_setPresenceIsPresent]
    rfl

/-- C1 witness: with all four conditions true and `force` off, the check-in
is accepted; the conjuncts are instantiated at a concrete request and
environment. -/
theorem performCheckin_accept_iff_witness :
    (((performCheckin ⟨some "u", some "e", some "h", false⟩
        ⟨true, true, none, none, .ok ⟨true, true, false, some "alice"⟩, true⟩).success
          = true ↔
      (true = true ∧ true = true ∧
        (checkinPresence ⟨some "u", some "e", some "h", false⟩
          ⟨true, true, none, none, .ok ⟨true, true, false, some "alice"⟩, true⟩).isMember
            = true ∧
        (checkinPresence ⟨some "u", some "e", some "h", false⟩
          ⟨true, true, none, none, .ok ⟨true, true, false, some "alice"⟩, true⟩).isRole
            = true)) ∧
    (allConditionsMet ⟨some "u", some "e", some "h", false⟩
        ⟨true, true, none, none, .ok ⟨true, true, false, some "alice"⟩, true⟩ = false →
      ∃ d, (performCheckin ⟨some "u", some "e", some "h", false⟩
          ⟨true, true, none, none, .ok ⟨true, true, false, some "alice"⟩, true⟩).details
            = some d ∧ d.statusUpdated = false) ∧
    (∀ b, (performCheckin ⟨some "u", some "e", some "h", false⟩
        (setPresenceIsPresent
          ⟨true, true, none, none, .ok ⟨true, true, false, some "alice"⟩, true⟩ b)).success =
      (performCheckin ⟨some "u", some "e", some "h", false⟩
        ⟨true, true, none, none, .ok ⟨true, true, false, some "alice"⟩, true⟩).success)) :=
  performCheckin_accept_iff _ _ "u" "e" rfl rfl rfl

/-- C2: with both ids supplied, `success` equals "all four conditions met OR
(`force` and the status write succeeded)"; under `force` the write is always
attempted, and a forced run whose write fails is not a success. -/
theorem performCheckin_success_formula (req : CheckinRequest) (env : CheckinEnv)
    (u e : String)
    (hu : jsTruthy req.userId = some u) (he : jsTruthy req.eventId = some e) :
    ((performCheckin req env).success =
      (allConditionsMet req env || (req.force && env.updateSucceeds))) ∧
    (req.force = true →
      (performCheckinT req env).2.statusWriteAttempted = true) ∧
    (req.force = true → allConditionsMet req env = false →
      env.updateSucceeds = false → (performCheckin req env).success = false) := by
  refine ⟨performCheckin_success_eq req env u e hu he, ?_, ?_⟩
  · intro hfo
    unfold performCheckinT
    rw [hu, he]
    simp [hfo]
  · intro hfo hmet hup
    rw [performCheckin_success_eq req env u e hu he, hfo, hmet, hup]
    rfl

/-- C2 witness: forced run with every precondition false and a failing
write; the formula is instantiated at a concrete request and environment. -/
theorem performCheckin_success_formula_witness :
    (((performCheckin ⟨some "u", some "e", none, true⟩
        ⟨false, false, none, none, .error "down", false⟩).success =
      (allConditionsMet ⟨some "u", some "e", none, true⟩
          ⟨false, false, none, none, .error "down", false⟩ || (true && false))) ∧
    (true = true →
      (performCheckinT ⟨some "u", some "e", none, true⟩
        ⟨false, false, none, none, .error "down", false⟩).2.statusWriteAttempted = true) ∧
    (true = true →
      allConditionsMet ⟨some "u", some "e", none, true⟩
        ⟨false, false, none, none, .error "down", false⟩ = false →
      false = false →
      (performCheckin ⟨some "u", some "e", none, true⟩
        ⟨false, false, none, none, .error "down", false⟩).success = false)) :=
  performCheckin_success_formula _ _ "u" "e" rfl rfl

/-- C10: when the caller supplies no truthy Discord handle and the two-table
lookup yields none, the presence defaults are all false, no Discord API call
is made, and without `force` the check-in cannot succeed. -/
theorem performCheckin_no_handle_defaults (req : CheckinRequest)
    (env : CheckinEnv) (u e : String)
    (hu : jsTruthy req.userId = some u) (he : jsTruthy req.eventId = some e)
    (hd : jsTruthy req.discordHandle = none)
    (hl : getDiscordHandle env.leagueHandle env.appHandle = none) :
    ((performCheckinT req env).2.discordApiCalled = false) ∧
    (∃ d, (performCheckin req env).details = some d ∧
      d.discordPresence = ⟨false, false, false, none⟩) ∧
    (req.force = false → (performCheckin req env).success = false) := by
  have heff : effectiveDiscordHandle req env = none := by
    unfold effectiveDiscordHandle
    rw [hd, hl]
  have hcp : checkinPresence req env = ⟨false, false, false, none⟩ := by
    unfold checkinPresence
    rw [heff]
  have hmet : allConditionsMet req env = false := by
    unfold allConditionsMet
    rw [hcp]
    simp
  refine ⟨?_, ?_, ?_⟩
  · unfold performCheckinT
    rw [hu, he]
    simp [heff]
  · refine ⟨_, performCheckin_details_eq req env u e hu he, ?_⟩
    simp [hcp]
  · intro hf
    rw [performCheckin_success_eq req env u e hu he, hmet, hf]
    rfl

/-- C10 witness: no provided handle and empty lookup tables at a concrete
request and environment. -/
theorem performCheckin_no_handle_defaults_witness :
    (((performCheckinT ⟨some "u", some "e", none, false⟩
        ⟨true, true, none, some "", .ok ⟨true, true, true, some "x"⟩, true⟩).2.discordApiCalled
          = false) ∧
    (∃ d, (performCheckin ⟨some "u", some "e", none, false⟩
        ⟨true, true, none, some "", .ok ⟨true, true, true, some "x"⟩, true⟩).details
          = some d ∧ d.discordPresence = ⟨false, false, false, none⟩) ∧
    (false = false →
      (performCheckin ⟨some "u", some "e", none, false⟩
        ⟨true, true, none, some "", .ok ⟨true, true, true, some "x"⟩, true⟩).success
          = false)) :=
  performCheckin_no_handle_defaults _ _ "u" "e" rfl rfl rfl rfl

lemma performCheckin_message_eq (req : CheckinRequest) (env : CheckinEnv)
    (u e : String)
    (hu : jsTruthy req.userId = some u) (he : jsTruthy req.eventId = some e)
    (hf : req.force = false) (hmet : allConditionsMet req env = false) :
    (performCheckin req env).message =
      "Checkin failed. Missing: " ++
        String.intercalate ", " (missingConditions req env) := by
  unfold performCheckin performCheckinT
  rw [hu, he]
  simp [hmet, hf]

/-- C8: a rejected, unforced check-in's message enumerates exactly the unmet
conditions among payment, decklist, Discord membership, Discord role, in
that fixed order, joined with a comma separator. -/
theorem performCheckin_failure_message (req : CheckinRequest) (env : CheckinEnv)
    (u e : String)
    (hu : jsTruthy req.userId = some u) (he : jsTruthy req.eventId = some e)
    (hf : req.force = false) (hmet : allConditionsMet req env = false) :
    (performCheckin req env).message =
      "Checkin failed. Missing: " ++
        String.intercalate ", "
          ((([("payment", env.hasPaid), ("decklist", env.hasDecklist),
              ("Discord membership", (checkinPresence req env).isMember),
              ("Discord role", (checkinPresence req env).isRole)]).filter
                (fun c => !c.2)).map (fun c => c.1)) := by
  rw [performCheckin_message_eq req env u e hu he hf hmet]
  have hlist : missingConditions req env =
      (([("payment", env.hasPaid), ("decklist", env.hasDecklist),
         ("Discord membership", (checkinPresence req env).isMember),
         ("Discord role", (checkinPresence req env).isRole)]).filter
           (fun c => !c.2)).map (fun c => c.1) := by
    unfold missingConditions
    cases h1 : env.hasPaid <;> cases h2 : env.hasDecklist <;>
      cases h3 : (checkinPresence req env).isMember <;>
      cases h4 : (checkinPresence req env).isRole <;>
      simp
  rw [hlist]

/-- C8 witness: only the decklist is missing, at a concrete request and
environment; the message lists exactly "decklist". -/
theorem performCheckin_failure_message_witness :
    (performCheckin ⟨some "u", some "e", some "h", false⟩
        ⟨true, false, none, none, .ok ⟨true, true, false, some "x"⟩, true⟩).message =
      "Checkin failed. Missing: " ++
        String.intercalate ", "
          ((([("payment", true), ("decklist", false),
              ("Discord membership",
                (checkinPresence ⟨some "u", some "e", some "h", false⟩
                  ⟨true, false, none, none, .ok ⟨true, true, false, some "x"⟩, true⟩).isMember),
              ("Discord role",
                (checkinPresence ⟨some "u", some "e", some "h", false⟩
                  ⟨true, false, none, none, .ok ⟨true, true, false, some "x"⟩, true⟩).isRole)]).filter
                (fun c => !c.2)).map (fun c => c.1)) :=
  performCheckin_failure_message _ _ "u" "e" rfl rfl rfl rfl

/-- C4: a bulk run on an event that is not REGISTRATION_CLOSED, without
`force`, returns the explanatory failure result and processes zero players
(no per-player check-ins are invoked: the processed-players trace is empty
and no per-player details are produced). -/
theorem performBulkCheckin_gate (req : BulkCheckinRequest) (env : BulkEnv)
    (ev : EventRow)
    (hid : ¬ req.eventId = "")
    (hev : env.event = .ok ev)
    (hst : ¬ ev.status = "REGISTRATION_CLOSED")
    (hf : req.force = false) :
    performBulkCheckinT req env =
      ({ success := false,
         message := "Event status is " ++ ev.status ++
           ", expected REGISTRATION_CLOSED",
         details := none,
         error := some "Event must be in REGISTRATION_CLOSED status to run check-ins" },
       []) := by
  unfold performBulkCheckinT
  rw [if_neg hid, hev]
  exact if_pos ⟨hst, hf⟩

/-- C4 witness: a REGISTRATION_OPEN event, no `force`. -/
theorem performBulkCheckin_gate_witness :
    performBulkCheckinT ⟨"E", false⟩
      ⟨.ok ⟨"E", "Title", "REGISTRATION_OPEN"⟩, .ok [⟨"p1", "PENDING"⟩],
        fun _ => .error "unused"⟩ =
      ({ success := false,
         message := "Event status is " ++ "REGISTRATION_OPEN" ++
           ", expected REGISTRATION_CLOSED",
         details := none,
         error := some "Event must be in REGISTRATION_CLOSED status to run check-ins" },
       []) :=
  performBulkCheckin_gate _ _ ⟨"E", "Title", "REGISTRATION_OPEN"⟩
    (by decide) rfl (by decide) rfl

lemma bulkProcess_length (eventId : String)
    (perPlayer : Nat → Except String CheckinEnv) :
    ∀ (i : Nat) (ps : List PlayerRow),
      (bulkProcess eventId perPlayer i ps).length = ps.length := by
  intro i ps
  induction ps generalizing i with
  | nil => rfl
  | cons p ps ih => simp [bulkProcess, ih (i + 1)]

lemma bulkProcess_getElem (eventId : String)
    (perPlayer : Nat → Except String CheckinEnv) :
    ∀ (i j : Nat) (ps : List PlayerRow),
      (bulkProcess eventId perPlayer i ps)[j]? =
        ps[j]?.map (bulkEntryFor eventId perPlayer (i + j)) := by
  intro i j ps
  induction ps generalizing i j with
  | nil => simp [bulkProcess]
  | cons p ps ih =>
      cases j with
      | zero => simp [bulkProcess]
      | succ j =>
          have harith : i + 1 + j = i + (j + 1) := by omega
          simp [bulkProcess, ih (i + 1) j, harith]

lemma performBulkCheckin_run (req : BulkCheckinRequest) (env : BulkEnv)
    (ev : EventRow) (players : List PlayerRow)
    (hid : ¬ req.eventId = "")
    (hev : env.event = .ok ev)
    (hgate : ¬(¬ ev.status = "REGISTRATION_CLOSED" ∧ req.force = false))
    (hps : env.players = .ok players)
    (hne : ¬ players = []) :
    (performBulkCheckin req env).details =
      some { eventId := req.eventId, eventStatus := ev.status,
             totalPlayers := players.length,
             successfulCheckins :=
               ((bulkProcess req.eventId env.perPlayer 0 players).filter
                 (fun r => r.success)).length,
             results := bulkProcess req.eventId env.perPlayer 0 players } := by
  have hemp : players.isEmpty = false := by
    cases players with
    | nil => exact absurd rfl hne
    | cons p ps => rfl
  unfold performBulkCheckin performBulkCheckinT
  simp only [if_neg hid, hev, if_neg hgate, hps, hemp, Bool.false_eq_true,
    if_false]

/-- C3: in a bulk run whose gate passes, an unexpected exception for the
i-th player yields a failure entry carrying that player's original status,
the run still produces one entry per roster player in roster order, and the
entries of every other player are unaffected by what happened at position i
(comparing against any second run agreeing everywhere else). -/
theorem performBulkCheckin_isolation
    (req : BulkCheckinRequest) (env env2 : BulkEnv) (ev : EventRow)
    (players : List PlayerRow) (i : Nat) (p : PlayerRow) (msg : String)
    (hid : ¬ req.eventId = "")
    (hev : env.event = .ok ev)
    (hgate : ev.status = "REGISTRATION_CLOSED" ∨ req.force = true)
    (hps : env.players = .ok players)
    (hp : players[i]? = some p)
    (herr : env.perPlayer i = .error msg)
    (hev2 : env2.event = env.event) (hps2 : env2.players = env.players)
    (hagree : ∀ j, ¬ j = i → env2.perPlayer j = env.perPlayer j) :
    ∃ d d2,
      (performBulkCheckin req env).details = some d ∧
      (performBulkCheckin req env2).details = some d2 ∧
      d.results.length = players.length ∧
      d2.results.length = players.length ∧
      d.results[i]? = some { userId := p.user_id, success := false,
                             message := msg, originalStatus := p.status } ∧
      (∀ j, ¬ j = i → d2.results[j]? = d.results[j]?) := by
  have hne : ¬ players = [] := by
    intro h
    rw [h] at hp
    simp at hp
  have hgate2 : ¬(¬ ev.status = "REGISTRATION_CLOSED" ∧ req.force = false) := by
    rcases hgate with h | h
    · intro hc
      exact hc.1 h
    · intro hc
      rw [h] at hc
      exact absurd hc.2 (by simp)
  have hd := performBulkCheckin_run req env ev players hid hev hgate2 hps hne
  have hd2 := performBulkCheckin_run req env2 ev players hid
    (by rw [hev2, hev]) hgate2 (by rw [hps2, hps]) hne
  refine ⟨_, _, hd, hd2, ?_, ?_, ?_, ?_⟩
  · exact bulkProcess_length _ _ 0 players
  · exact bulkProcess_length _ _ 0 players
  · rw [bulkProcess_getElem _ _ 0 i players, hp]
    simp only [Option.map_some', Nat.zero_add]
    unfold bulkEntryFor
    rw [herr]
  · intro j hj
    rw [bulkProcess_getElem _ _ 0 j players, bulkProcess_getElem _ _ 0 j players]
    cases hq : players[j]? with
    | none => rfl
    | some q =>
        simp only [Option.map_some', Nat.zero_add]
        unfold bulkEntryFor
        rw [hagree j hj]

/-- C3 witness: a three-player roster where processing of the middle player
throws; instantiated with the comparison run identical to the first. -/
theorem performBulkCheckin_isolation_witness :
    ∃ d d2,
      (performBulkCheckin ⟨"E", false⟩
        ⟨.ok ⟨"E", "Title", "REGISTRATION_CLOSED"⟩,
         .ok [⟨"p1", "PENDING"⟩, ⟨"p2", "CONFIRMED"⟩, ⟨"p3", "PENDING"⟩],
         fun j => if j = 1 then .error "boom"
           else .ok ⟨true, true, none, none, .ok ⟨true, true, true, some "x"⟩, true⟩⟩).details
        = some d ∧
      (performBulkCheckin ⟨"E", false⟩
        ⟨.ok ⟨"E", "Title", "REGISTRATION_CLOSED"⟩,
         .ok [⟨"p1", "PENDING"⟩, ⟨"p2", "CONFIRMED"⟩, ⟨"p3", "PENDING"⟩],
         fun j => if j = 1 then .error "boom"
           else .ok ⟨true, true, none, none, .ok ⟨true, true, true, some "x"⟩, true⟩⟩).details
        = some d2 ∧
      d.results.length =
        ([⟨"p1", "PENDING"⟩, ⟨"p2", "CONFIRMED"⟩, ⟨"p3", "PENDING"⟩] :
          List PlayerRow).length ∧
      d2.results.length =
        ([⟨"p1", "PENDING"⟩, ⟨"p2", "CONFIRMED"⟩, ⟨"p3", "PENDING"⟩] :
          List PlayerRow).length ∧
      d.results[1]? = some { userId := "p2", success := false,
                             message := "boom", originalStatus := "CONFIRMED" } ∧
      (∀ j, ¬ j = 1 → d2.results[j]? = d.results[j]?) :=
  performBulkCheckin_isolation _ _ _ ⟨"E", "Title", "REGISTRATION_CLOSED"⟩
    [⟨"p1", "PENDING"⟩, ⟨"p2", "CONFIRMED"⟩, ⟨"p3", "PENDING"⟩] 1
    ⟨"p2", "CONFIRMED"⟩ "boom"
    (by decide) rfl (Or.inl rfl) rfl rfl rfl rfl rfl (fun _ _ => rfl)

lemma checkinEffect_writes_only_confirmed (req : CheckinRequest)
    (env : CheckinEnv) (s : DbState) (k : String × String) :
    checkinEffect req env s k = s k ∨
      checkinEffect req env s k = some "CONFIRMED" := by
  unfold checkinEffect
  cases jsTruthy req.userId with
  | none => exact Or.inl rfl
  | some u =>
      cases jsTruthy req.eventId with
      | none => exact Or.inl rfl
      | some e =>
          cases hw : ((performCheckinT req env).2.statusWriteAttempted &&
              env.updateSucceeds) with
          | false => simp
          | true =>
              simp only [if_true]
              unfold applyStatusWrite
              by_cases hk : k = (u, e) ∧ (s k).isSome
              · exact Or.inr (if_pos hk)
              · exact Or.inl (if_neg hk)

lemma bulkLoopEffect_writes_only_confirmed (eventId : String)
    (perPlayer : Nat → Except String CheckinEnv) :
    ∀ (i : Nat) (ps : List PlayerRow) (s : DbState) (k : String × String),
      bulkLoopEffect eventId perPlayer i ps s k = s k ∨
        bulkLoopEffect eventId perPlayer i ps s k = some "CONFIRMED" := by
  intro i ps
  induction ps generalizing i with
  | nil => intro s k; exact Or.inl rfl
  | cons p ps ih =>
      intro s k
      unfold bulkLoopEffect
      cases hpp : perPlayer i with
      | ok cenv =>
          rcases ih (i + 1) _ k with h | h
          · rw [h]
            exact checkinEffect_writes_only_confirmed _ _ _ _
          · exact Or.inr h
      | error msg => exact ih (i + 1) s k

lemma bulkEffect_writes_only_confirmed (req : BulkCheckinRequest)
    (env : BulkEnv) (s : DbState) (k : String × String) :
    bulkEffect req env s k = s k ∨ bulkEffect req env s k = some "CONFIRMED" := by
  unfold bulkEffect
  by_cases h1 : req.eventId = ""
  · rw [if_pos h1]
    exact Or.inl rfl
  · rw [if_neg h1]
    cases env.event with
    | error e => exact Or.inl rfl
    | ok ev =>
        dsimp only
        by_cases h2 : ¬ ev.status = "REGISTRATION_CLOSED" ∧ req.force = false
        · rw [if_pos h2]
          exact Or.inl rfl
        · rw [if_neg h2]
          cases env.players with
          | error e => exact Or.inl rfl
          | ok players => exact bulkLoopEffect_writes_only_confirmed _ _ 0 players s k

lemma engineStep_writes_only_confirmed {s s' : DbState}
    (h : EngineStep s s') (k : String × String) :
    s' k = s k ∨ s' k = some "CONFIRMED" := by
  cases h with
  | single req env s => exact checkinEffect_writes_only_confirmed req env s k
  | bulk req env s => exact bulkEffect_writes_only_confirmed req env s k

/-- C9 counterexample: a reachable state holding a CANCELLED registration,
followed by one forced single check-in, transitions that registration from
CANCELLED straight to CONFIRMED — so the claim that engine transitions only
start from PENDING or CONFIRMED is false. -/
theorem engine_transition_counterexample :
    ¬ (∀ (s0 s s' : DbState), EngineReachable s0 s → EngineStep s s' →
        ∀ k : String × String, ¬ s' k = s k →
          (s k = some "PENDING" ∨ s k = some "CONFIRMED") ∧
            s' k = some "CONFIRMED") := by
  intro h
  have hstep : EngineStep
      (fun k => if k = ("u", "e") then some "CANCELLED" else none)
      (checkinEffect ⟨some "u", some "e", some "h", true⟩
        ⟨false, false, none, none, .error "down", true⟩
        (fun k => if k = ("u", "e") then some "CANCELLED" else none)) :=
    EngineStep.single _ _ _
  have hinst := h _ _ _ Relation.ReflTransGen.refl hstep ("u", "e") (by decide)
  have hold := hinst.1
  revert hold
  decide

/-- C9 amended: every status change an engine step makes sets the status to
CONFIRMED (the engine writes nothing else), and a CONFIRMED status never
transitions away; the pre-transition status, however, may be any stored
value, not only PENDING or CONFIRMED. -/
theorem engine_writes_only_confirmed (s0 s s' : DbState)
    (_hr : EngineReachable s0 s) (hstep : EngineStep s s') (k : String × String) :
    (¬ s' k = s k → s' k = some "CONFIRMED") ∧
      (s k = some "CONFIRMED" → s' k = some "CONFIRMED") := by
  rcases engineStep_writes_only_confirmed hstep k with h | h
  · exact ⟨fun hne => absurd h hne, fun hc => h.trans hc⟩
  · exact ⟨fun _ => h, fun _ => h⟩

/-- C9 amended witness: one forced single check-in step out of a state
holding a CANCELLED registration, reached reflexively. -/
theorem engine_writes_only_confirmed_witness :
    (¬ (checkinEffect ⟨some "u", some "e", some "h", true⟩
          ⟨false, false, none, none, .error "down", true⟩
          (fun k => if k = ("u", "e") then some "CANCELLED" else none)) ("u", "e") =
        (fun k : String × String =>
          if k = ("u", "e") then some "CANCELLED" else none) ("u", "e") →
      (checkinEffect ⟨some "u", some "e", some "h", true⟩
          ⟨false, false, none, none, .error "down", true⟩
          (fun k => if k = ("u", "e") then some "CANCELLED" else none)) ("u", "e") =
        some "CONFIRMED") ∧
    ((fun k : String × String =>
        if k = ("u", "e") then some "CANCELLED" else none) ("u", "e") =
          some "CONFIRMED" →
      (checkinEffect ⟨some "u", some "e", some "h", true⟩
          ⟨false, false, none, none, .error "down", true⟩
          (fun k => if k = ("u", "e") then some "CANCELLED" else none)) ("u", "e") =
        some "CONFIRMED") :=
  engine_writes_only_confirmed _ _ _ Relation.ReflTransGen.refl
    (EngineStep.single ⟨some "u", some "e", some "h", true⟩
      ⟨false, false, none, none, .error "down", true⟩
      (fun k => if k = ("u", "e") then some "CANCELLED" else none)) ("u", "e")

end GscRogue
